import Mathlib

/-!
Shallow embedding of the goreq HTTP request builder (src/goreq.go) and proofs
about its configuration operations, retry loop, request materialization,
decoding and status validation.

Conventions of the embedding:
- Go byte slices and request/response bodies are modelled as `String`.
- Go `error` values are modelled by the inductive `GoErr`; `errors.Is` is
  modelled as equality (no error wrapping occurs in the modelled code paths).
- The `context.Context` carried by a descriptor is modelled by the single
  boolean `ctxErr`: `true` exactly when `r.ctx.Err() != nil`.  `contextErr`
  (goreq.go:641) cancels a child context with the given cause, after which
  `r.ctx.Err()` is non-nil; the cause itself is only ever read back through
  the separate `err` field, so a boolean suffices.
- Go `map[string][]string` values obey reference semantics on struct
  assignment, which `Clone` relies on; header maps therefore live in an
  explicit store (`HeaderStore`) and descriptors hold an address into it.
- Maps and `url.Values` are modelled as association lists with unique keys;
  Go map iteration order is abstracted by list order.
- Runtime panics (nil-pointer dereference, the `panic` in
  `emptyOptions.Sleep`) are modelled by explicit `fault` outcomes.
- The unbounded `for` loop in `Fetch` is modelled with explicit fuel; fuel
  exhaustion is a distinguished outcome and every theorem supplies enough
  fuel for the executions it speaks about.
-/

/-- Go `error` values arising in the modelled code, by provenance. -/
inductive GoErr where
  /-- `errors.New(s)` at a configuration site. -/
  | msg (s : String)
  /-- `strconv.Atoi` failure on input `s`. -/
  | atoiErr (s : String)
  /-- `strconv.ParseBool` failure on input `s`. -/
  | parseBoolErr (s : String)
  /-- a JSON decode failure whose message is `s` (delegated capability). -/
  | jsonErr (s : String)
  /-- `"%s: status code incorrect"` (goreq.go:608,634). -/
  | statusIncorrect (status : String)
  /-- `"%s: status code incorrect, error decode body: %s\n"` (goreq.go:604,630). -/
  | statusDecode (status : String) (decodeMsg : String)
  /-- an error returned by the transport (`client.Do`). -/
  | transport (s : String)
  /-- a cancelled context observed through `ctx.Err()`. -/
  | ctxCancelled
  deriving DecidableEq, Repr

/-- The rendered error message, following the `fmt` format strings in the
source (quoting of arguments by `%q`-style verbs is omitted). -/
def GoErr.message : GoErr → String
  | .msg s => s
  | .atoiErr s => "strconv.Atoi: parsing " ++ s ++ ": invalid syntax"
  | .parseBoolErr s => "strconv.ParseBool: parsing " ++ s ++ ": invalid syntax"
  | .jsonErr s => s
  | .statusIncorrect status => status ++ ": status code incorrect"
  | .statusDecode status decodeMsg =>
      status ++ ": status code incorrect, error decode body: " ++ decodeMsg ++ "\n"
  | .transport s => s
  | .ctxCancelled => "context canceled"

/-- One `http.Cookie` (only the fields the modelled code reads). -/
structure Cookie where
  name : String
  value : String
  deriving DecidableEq, Repr

/-- An `*http.Response` as consumed by `Fetch`: status, the
`Content-Encoding` header, the raw body bytes and the response cookies. -/
structure Response where
  statusCode : Int
  status : String
  contentEncoding : String
  body : String
  cookies : List Cookie
  deriving DecidableEq, Repr

/-- The closed set of result shapes the generic parameter `T` ranges over in
the claims: byte slice, string, int, bool, or an arbitrary JSON-structured
destination. -/
inductive DestT where
  | bytes
  | text
  | intT
  | boolT
  | json
  deriving DecidableEq, Repr

/-- The Go dynamic types that the type switches in `checkType` and `any`
inspect.  `other` stands for every type not named by any case arm. -/
inductive GoType where
  | ptrBytes
  | bytesV
  | ptrString
  | stringV
  | intV
  | ptrInt
  | boolV
  | ptrBool
  | other
  deriving DecidableEq, Repr

/-- The Go dynamic type of a value `t` of the result type `T`
(what `checkType(t)` receives from `New`, goreq.go:658). -/
def valType : DestT → GoType
  | .bytes => .bytesV
  | .text => .stringV
  | .intT => .intV
  | .boolT => .boolV
  | .json => .other

/-- The Go dynamic type of `&t` for `t : T`
(what `r.any(&t, dt)` receives from `Fetch`, goreq.go:622). -/
def ptrType : DestT → GoType
  | .bytes => .ptrBytes
  | .text => .ptrString
  | .intT => .ptrInt
  | .boolT => .ptrBool
  | .json => .other

/-- `checkType` (goreq.go:403-420): returns the value stored into `r.isJson`.
The case arms are `*[]byte, []byte, *string, string, int, *int`; every other
type (note: including `bool`) is classified JSON. -/
def checkType : GoType → Bool
  | .ptrBytes => false
  | .bytesV => false
  | .ptrString => false
  | .stringV => false
  | .intV => false
  | .ptrInt => false
  | _ => true

/-- Decimal digit run parser underlying the `strconv.Atoi` model. -/
def parseDigits (cs : List Char) : Option Nat :=
  if cs ≠ [] ∧ cs.all Char.isDigit then
    some (cs.foldl (fun acc c => acc * 10 + (c.toNat - 48)) 0)
  else
    none

/-- `strconv.Atoi`: optional sign followed by at least one digit
(64-bit overflow is not modelled; all inputs in this development are small). -/
def atoi (s : String) : Except GoErr Int :=
  match s.toList with
  | '+' :: rest =>
      match parseDigits rest with
      | some n => .ok (n : Int)
      | none => .error (.atoiErr s)
  | '-' :: rest =>
      match parseDigits rest with
      | some n => .ok (-(n : Int))
      | none => .error (.atoiErr s)
  | cs =>
      match parseDigits cs with
      | some n => .ok (n : Int)
      | none => .error (.atoiErr s)

/-- `strconv.ParseBool`: accepts exactly the listed literals. -/
def parseBool (s : String) : Except GoErr Bool :=
  if s = "1" ∨ s = "t" ∨ s = "T" ∨ s = "TRUE" ∨ s = "true" ∨ s = "True" then
    .ok true
  else if s = "0" ∨ s = "f" ∨ s = "F" ∨ s = "FALSE" ∨ s = "false" ∨ s = "False" then
    .ok false
  else
    .error (.parseBoolErr s)

/-- A decoded result value, one constructor per destination shape;
`obj` stands for an arbitrary structured JSON destination. -/
inductive GoValue where
  | bytes (s : String)
  | str (s : String)
  | intVal (n : Int)
  | boolVal (b : Bool)
  | obj (fields : List (String × String))
  deriving DecidableEq, Repr

/-- The zero value `var t T` of each destination type. -/
def zeroValue : DestT → GoValue
  | .bytes => .bytes ""
  | .text => .str ""
  | .intT => .intVal 0
  | .boolT => .boolVal false
  | .json => .obj []

/-- The outcome of one call to a `RetryOptions.Sleep` implementation: return
`true`, return `false`, or panic (the `emptyOptions` implementation,
goreq.go:164-166). -/
inductive SleepBehavior where
  | allow
  | deny
  | panics
  deriving DecidableEq, Repr

/-- The `RetryOptions` interface (goreq.go:102-105), as a record of its two
operations. -/
structure RetryOptions where
  Repeat : Option Response → Option GoErr → Bool
  Sleep : Int → SleepBehavior

/-- `emptyOptions` (goreq.go:158-166): never repeat; `Sleep` panics with
"not implemented". -/
def emptyOptionsGo : RetryOptions where
  Repeat := fun _ _ => false
  Sleep := fun _ => .panics

/-- `DefaultRetryOptions` (goreq.go:107-111). -/
structure DefaultRetryOptions where
  Count : Int
  HttpErrors : List GoErr
  HttpStatusCodes : List Int
  deriving Repr

/-- `DefaultRetryOptions.inStatusCode` (goreq.go:113-123): an empty
status-code list matches every status. -/
def DefaultRetryOptions.inStatusCode (d : DefaultRetryOptions) (statusCode : Int) : Bool :=
  if d.HttpStatusCodes.length = 0 then
    true
  else
    d.HttpStatusCodes.contains statusCode

/-- `DefaultRetryOptions.inHttpError` (goreq.go:125-138): a nil error never
matches, even against an empty list; otherwise an empty list matches any
error, and a non-empty list is scanned with `errors.Is` (modelled as
equality, since no wrapped errors occur in the model). -/
def DefaultRetryOptions.inHttpError (d : DefaultRetryOptions) (err : Option GoErr) : Bool :=
  match err with
  | none => false
  | some e =>
      if d.HttpErrors.length = 0 then
        true
      else
        d.HttpErrors.contains e

/-- `DefaultRetryOptions.Repeat` (goreq.go:140-147).  The `slog.Debug` call
has no observable effect and is omitted. -/
def DefaultRetryOptions.Repeat (d : DefaultRetryOptions) (response : Option Response)
    (err : Option GoErr) : Bool :=
  match response with
  | none => d.inHttpError err
  | some resp => d.inHttpError err && d.inStatusCode resp.statusCode

/-- `DefaultRetryOptions.Sleep` (goreq.go:149-156): refuse once the counter
exceeds `Count`; otherwise sleep (wall-clock time is not modelled) and
allow another attempt. -/
def DefaultRetryOptions.Sleep (d : DefaultRetryOptions) (counter : Int) : SleepBehavior :=
  if counter > d.Count then .deny else .allow

/-- The `RetryOptions` interface value carried by a `DefaultRetryOptions`. -/
def DefaultRetryOptions.asRetryOptions (d : DefaultRetryOptions) : RetryOptions where
  Repeat := d.Repeat
  Sleep := d.Sleep

/-- An association list with unique keys, modelling both `map[string][]string`
(header maps) and `url.Values`. -/
abbrev AssocMap := List (String × List String)

/-- Map assignment `m[k] = vs`: replace the binding if the key is present,
otherwise add it. -/
def assocSet : AssocMap → String → List String → AssocMap
  | [], k, vs => [(k, vs)]
  | p :: t, k, vs => if p.1 = k then (k, vs) :: t else p :: assocSet t k vs

/-- Map read `m[k]` on a `map[string][]string`: a missing key reads as the
nil slice. -/
def assocGet (m : AssocMap) (k : String) : List String :=
  (m.lookup k).getD []

/-- `url.Values.Get` (net/url): the first value associated with the key, or
the empty string when the key is absent. -/
def valuesGet (q : AssocMap) (key : String) : String :=
  match q.lookup key with
  | some (v :: _) => v
  | _ => ""

/-- `url.Values.Set`: replace all values of the key with the single value. -/
def valuesSet (q : AssocMap) (key value : String) : AssocMap :=
  assocSet q key [value]

/-- `url.Values.Add`: append the value to the key's list. -/
def valuesAdd (q : AssocMap) (key value : String) : AssocMap :=
  assocSet q key (assocGet q key ++ [value])

/-- `append(m[k], v)` followed by `m[k] = ...` — the header accumulation step
of `Headers` (goreq.go:282,285). -/
def headerAppend (m : AssocMap) (k v : String) : AssocMap :=
  assocSet m k (assocGet m k ++ [v])

/-- A parsed `*url.URL`, reduced to the components the modelled code touches.
`Params` reads the query through `u.Query()` and writes it back through
`u.RawQuery = q.Encode()`; the query is kept in parsed form here, so the
encode/parse round trip is the identity and `Encode`'s key sorting is
abstracted (it only permutes distinct keys and is invisible to lookups). -/
structure Url where
  path : String
  query : AssocMap
  deriving DecidableEq, Repr

/-- The store of live header maps.  Go struct assignment (`*rq = *r` in
`Clone`) copies the map *reference*, so descriptors hold an address into
this store rather than a map value. -/
structure HeaderStore where
  maps : List AssocMap
  deriving Repr

/-- Dereference a header-map address. -/
def HeaderStore.read (w : HeaderStore) (a : Nat) : AssocMap :=
  w.maps.getD a []

/-- Write through a header-map address. -/
def HeaderStore.write (w : HeaderStore) (a : Nat) (m : AssocMap) : HeaderStore :=
  ⟨w.maps.set a m⟩

/-- Allocate a fresh header map, returning its address. -/
def HeaderStore.alloc (w : HeaderStore) (m : AssocMap) : HeaderStore × Nat :=
  (⟨w.maps ++ [m]⟩, w.maps.length)

/-- The store with no allocated maps. -/
def emptyStore : HeaderStore := ⟨[]⟩

/-- A materialized `*http.Request` (the fields the modelled code writes).
`AddCookie` encodes cookies into the `Cookie` header in Go; here the
attached cookies are kept as a separate field, which no modelled code
re-reads. -/
structure WireRequest where
  method : String
  url : Url
  bodyData : String
  header : AssocMap
  cookies : List Cookie
  deriving DecidableEq, Repr

/-- The zero `http.Request` allocated by `new(http.Request)` in `Clone`. -/
def emptyWireRequest : WireRequest :=
  { method := "", url := { path := "", query := [] }, bodyData := "", header := [], cookies := [] }

/-- RFC 7230 token characters, as checked by `http.NewRequest` on the method
(the apostrophe and backtick token characters are omitted from the list; no
modelled input contains them). -/
def isTokenChar (c : Char) : Bool :=
  c.isAlphanum || ['!', '#', '$', '%', '&', '*', '+', '-', '.', '^', '_', '|', '~'].contains c

/-- `http.NewRequest(method, u.String(), body)`: an empty method defaults to
GET, an invalid method token is an error; the URL is already parsed, so its
re-parse cannot fail.  A nil body reads as no bytes.  The fresh request has
an empty header map and no cookies. -/
def newRequestGo (method : String) (u : Url) (body : Option String) : Except GoErr WireRequest :=
  let m := if method = "" then "GET" else method
  if m.toList.all isTokenChar then
    .ok { method := m, url := u, bodyData := body.getD "", header := [], cookies := [] }
  else
    .error (.msg ("net/http: invalid method " ++ m))

/-- The consumable state of a `Multipart` builder at materialization time:
the error (if any) latched on its context, and the content type and payload
that `make()` (goreq.go:84-95) produces.  `make`'s buffer reset and the
impossibility of a `Close` failure on a `bytes.Buffer` are abstracted. -/
structure MultipartState where
  ctxErr : Option GoErr
  contentType : String
  payload : String
  deriving DecidableEq, Repr

/-- The `Request[T]` descriptor (goreq.go:170-193).  The generic parameter
`T` is represented by `dest`; `isJson` is the field `checkType` computes
from it at construction.  Fields the modelled code never reads (`link`,
`data`, `dataReader`, `proxy`, `timeouts`, `repeatStatusCodes`,
`repeatHttpErrors`) are omitted; `client` is an opaque transport handle and
`retBody` records whether a tee buffer was registered. -/
structure Request where
  dest : DestT
  ctxErr : Bool
  u : Url
  method : String
  headersAddr : Nat
  body : String
  multipart : Option MultipartState
  isJson : Bool
  retBody : Bool
  finalReq : Option WireRequest
  retryOptions : RetryOptions
  err : Option GoErr
  lastResponse : Option Response
  cookie : List Cookie
  client : Nat

/-- `contextErr` (goreq.go:641-649): a nil cause is a no-op; otherwise the
descriptor's context is replaced by a child cancelled with that cause, so
`ctx.Err()` becomes non-nil. -/
def Request.contextErr (r : Request) (e : Option GoErr) : Request :=
  match e with
  | none => r
  | some _ => { r with ctxErr := true }

/-- `Client` (goreq.go:222-228). -/
def Request.Client (r : Request) (cl : Nat) : Request :=
  if r.ctxErr then r else { r with client := cl }

/-- `Path` (goreq.go:231-237). -/
def Request.Path (r : Request) (path : String) : Request :=
  if r.ctxErr then r else { r with u := { r.u with path := path } }

/-- `Cookie` (goreq.go:240-243).  Note: unlike every other configuration
operation, the source has no `r.ctx.Err()` guard here. -/
def Request.Cookie (r : Request) (c : List Cookie) : Request :=
  { r with cookie := c }

/-- The body of the `for len(attr) > 0` loop of `Params` (goreq.go:258-270).
The single-element branch of the source (`q.Add(attr[0], ""); attr =
attr[0:]`) leaves `attr` unchanged and never terminates; it is unreachable
because `Params` rejects odd-length argument lists first, and is modelled
as performing its `Add` once and stopping. -/
def paramsLoop : AssocMap → List String → AssocMap
  | q, a :: b :: rest => paramsLoop (if valuesGet q a ≠ "" then valuesSet q a b else valuesAdd q a b) rest
  | q, [a] => valuesAdd q a ""
  | q, [] => q

/-- `Params` (goreq.go:248-273): guard on the cancelled context, reject an
odd-length argument list (latching the error), otherwise fold the key/value
pairs over the current query and write the result back. -/
def Request.Params (r : Request) (attr : List String) : Request :=
  if r.ctxErr then r
  else
    let q := r.u.query
    if attr.length % 2 ≠ 0 then
      let r1 : Request := { r with err := some (.msg "incompatible query parameter") }
      r1.contextErr r1.err
    else
      { r with u := { r.u with query := paramsLoop q attr } }

/-- The body of the `for len(attr) > 0` loop of `Headers` (goreq.go:280-288):
pairs accumulate; a trailing odd key accumulates the empty string. -/
def headersLoop : AssocMap → List String → AssocMap
  | m, a :: b :: rest => headersLoop (headerAppend m a b) rest
  | m, [a] => headerAppend m a ""
  | m, [] => m

/-- `Headers` (goreq.go:276-290): accumulate key/value pairs into the
descriptor's header map (through its address — the map is shared with any
clone). -/
def Request.Headers (w : HeaderStore) (r : Request) (attr : List String) : HeaderStore × Request :=
  if r.ctxErr then (w, r)
  else (w.write r.headersAddr (headersLoop (w.read r.headersAddr) attr), r)

/-- The standard-method list of `Method` (goreq.go:297-298). -/
def standardMethods : List String :=
  ["GET", "POST", "CONNECT", "DELETE", "OPTIONS", "PATCH", "TRACE", "HEAD", "PUT"]

/-- `Method` (goreq.go:293-304).  Note: the validation reads `r.method` (the
method currently held by the descriptor), not the `method` argument, and the
argument is stored afterwards in either case. -/
def Request.Method (r : Request) (method : String) : Request :=
  if r.ctxErr then r
  else
    let r1 :=
      if ¬ standardMethods.contains r.method then
        let r1 : Request := { r with err := some (.msg "method incorrect") }
        r1.contextErr r1.err
      else r
    { r1 with method := method }

/-- `BodyJson` (goreq.go:307-316).  The `json.Marshal` collaborator's result
is passed in.  On marshal failure the error is latched, after which the
`Headers` call inside the source is guarded out by the freshly cancelled
context. -/
def Request.BodyJson (w : HeaderStore) (r : Request) (marshalled : Except GoErr String) :
    HeaderStore × Request :=
  if r.ctxErr then (w, r)
  else
    let r1 : Request :=
      match marshalled with
      | .ok b => { r with body := b, err := none }
      | .error e => ({ r with body := "", err := some e } : Request).contextErr (some e)
    let wr := Request.Headers w r1 ["Content-Type", "application/json"]
    (wr.1, { wr.2 with method := "POST" })

/-- `BodyMultipart` (goreq.go:319-326). -/
def Request.BodyMultipart (r : Request) (m : MultipartState) : Request :=
  if r.ctxErr then r else { r with method := "POST", multipart := some m }

/-- `BodyRaw` (goreq.go:329-336). -/
def Request.BodyRaw (r : Request) (raw : String) : Request :=
  if r.ctxErr then r else { r with method := "POST", body := raw }

/-- `ToBody` (goreq.go:365-374): a nil buffer is ignored; otherwise the tee
target is registered (the buffer itself is opaque to the model). -/
def Request.ToBody (r : Request) (b : Option Unit) : Request :=
  if r.ctxErr then r
  else
    match b with
    | none => r
    | some _ => { r with retBody := true }

/-- `Retry` (goreq.go:455-461). -/
def Request.Retry (r : Request) (options : RetryOptions) : Request :=
  if r.ctxErr then r else { r with retryOptions := options }

/-- `Clone` (goreq.go:196-219).  `*rq = *r` copies every field, including
the header-map *reference* (`headersAddr`) and the cookie slice header.
The subsequent pointer copies are: `*(rq.finalReq) = *(r.finalReq)` (a
self-assignment through the shared pointer when `finalReq` is non-nil,
otherwise a fresh zero request); `*(rq.retBody) = *(r.retBody)` and
`*(rq.client) = *(r.client)` (self-assignments, leaving the buffer and
client shared); the `dataReader` copy is skipped because `r.data` is never
non-nil in any modelled path; and `*(rq.lastResponse) = *(r.lastResponse)`
(again a self-assignment). -/
def Request.Clone (r : Request) : Request :=
  match r.finalReq with
  | some _ => r
  | none => { r with finalReq := some emptyWireRequest }

/-- The default header map installed by `New` (goreq.go:664-667). -/
def defaultHeaders : AssocMap :=
  [("Accept-Encoding", ["deflate,gzip,zstd,br"]), ("User-Agent", ["SomniSom-goreq/1.0"])]

/-- `New` (goreq.go:653-675): classify the destination type, set the GET
default method, allocate the default header map, install the default client
and the no-retry policy, and parse the link (the `url.Parse` collaborator's
result is passed in).  A parse failure latches the error; the source then
leaves `r.u` nil, which no later operation dereferences because the guard
fires first — the model keeps a zero URL in that case.  `ctxCancelled` is
the state of the caller-supplied context. -/
def New (w : HeaderStore) (dest : DestT) (ctxCancelled : Bool) (parsed : Except GoErr Url) :
    HeaderStore × Request :=
  let wa := w.alloc defaultHeaders
  let base : Request :=
    { dest := dest
      ctxErr := ctxCancelled
      u := { path := "", query := [] }
      method := "GET"
      headersAddr := wa.2
      body := ""
      multipart := none
      isJson := checkType (valType dest)
      retBody := false
      finalReq := none
      retryOptions := emptyOptionsGo
      err := none
      lastResponse := none
      cookie := []
      client := 0 }
  match parsed with
  | .ok u => (wa.1, { base with u := u })
  | .error e => (wa.1, ({ base with err := some e } : Request).contextErr (some e))

/-- `any` (goreq.go:376-402): the polymorphic byte decoder, as a function of
the Go dynamic type of its first argument.  `Fetch` always passes `&t`, a
*pointer* to the destination, so the value arms `case int:` and `case bool:`
can never match there and an `int` destination falls through to the default
arm, which reassigns only the local parameter and leaves the destination at
its current value with a nil error.  (Were the `int`/`bool` value arms ever
taken, their bodies' pointer type assertions `t.(*int)` / `t.(*bool)` would
themselves panic; those arms are unreachable from the modelled call site and
are rendered by their intended parses here.) -/
def Request.any (τ : GoType) (cur : GoValue) (dt : String) : Except GoErr GoValue :=
  match τ with
  | .ptrBytes => .ok (.bytes dt)
  | .ptrString => .ok (.str dt)
  | .intV => (atoi dt).map .intVal
  | .boolV => (parseBool dt).map .boolVal
  | .ptrBool => (parseBool dt).map .boolVal
  | _ => .ok cur

/-- The origin of a modelled runtime panic inside `Fetch`: the nil
`finalReq` dereference in `makeRequest`, or `emptyOptions.Sleep`'s
`panic("not implemented")`. -/
inductive FaultSrc where
  | nilFinalReq
  | sleepPanic
  deriving DecidableEq, Repr

/-- The outcome of `makeRequest` (goreq.go:468-512): a nil-pointer panic, an
error return (with the descriptor as mutated up to that point), or success
with the materialized request stored in `finalReq`. -/
inductive MakeOut where
  | fault
  | failed (e : GoErr) (r : Request)
  | ok (r : Request)

/-- The common tail of `makeRequest`: check the `NewRequest` error (latching
it), then attach the accumulated cookies and copy the accumulated headers
onto the wire request, overriding same-key defaults.  For the multipart
branch the `Content-Type` produced by `make()` is written first, exactly as
in the source (goreq.go:489), so a caller-set header of the same key still
overrides it in the later merge. -/
def makeFinish (w : HeaderStore) (r : Request) (built : Except GoErr WireRequest)
    (multipartCtt : Option String) : MakeOut :=
  match built with
  | .error e => .failed e (({ r with err := some e } : Request).contextErr (some e))
  | .ok req0 =>
      let req1 :=
        match multipartCtt with
        | some ctt => { req0 with header := assocSet req0.header "Content-Type" [ctt] }
        | none => req0
      let req2 := { req1 with cookies := if r.cookie.length > 0 then r.cookie else req1.cookies }
      let req3 := { req2 with header := (w.read r.headersAddr).foldl (fun h p => assocSet h p.1 p.2) req2.header }
      .ok { r with finalReq := some req3, err := none }

/-- `makeRequest` (goreq.go:468-512).  In both the raw-body and the
multipart branch the source first evaluates `r.finalReq.Method` to apply the
GET-to-POST "fix": on a descriptor whose `finalReq` was never allocated
(every descriptor fresh from `New`) this dereferences a nil pointer and
panics.  When `finalReq` is non-nil the fix mutates an object that the very
next line replaces wholesale with `http.NewRequest`'s result, so it has no
observable effect.  A multipart context error is surfaced without setting
`r.err` (only `contextErr` runs, goreq.go:484-485); a `NewRequest` failure
in the multipart branch would be followed by a write through the nil
request (goreq.go:489), another panic. -/
def Request.makeRequest (w : HeaderStore) (r : Request) : MakeOut :=
  if r.body.length > 0 then
    match r.finalReq with
    | none => .fault
    | some fr =>
        let _fixed := if fr.method = "GET" then { fr with method := "POST" } else fr
        makeFinish w r (newRequestGo r.method r.u (some r.body)) none
  else
    match r.multipart with
    | some m =>
        match r.finalReq with
        | none => .fault
        | some fr =>
            let _fixed := if fr.method = "GET" then { fr with method := "POST" } else fr
            match m.ctxErr with
            | some e => .failed e (r.contextErr (some e))
            | none =>
                match newRequestGo r.method r.u (some m.payload) with
                | .error _ => .fault
                | .ok req => makeFinish w r (.ok req) (some m.contentType)
    | none => makeFinish w r (newRequestGo r.method r.u none) none

/-- How one run of the retry loop (goreq.go:533-544) ends: the condition
went false or `Sleep` denied (`break`), the in-loop `return t, r.err` fired,
`Sleep` panicked, or the supplied fuel ran out (the Go loop would still be
running).  Each exit carries the number of `Sleep` invocations made. -/
inductive LoopOut where
  | exited (sleepCalls : Nat)
  | earlyRet (sleepCalls : Nat)
  | panicked (sleepCalls : Nat)
  | diverged (sleepCalls : Nat)
  deriving DecidableEq, Repr

/-- Add later `Sleep` invocations onto a loop outcome. -/
def LoopOut.addSleeps : LoopOut → Nat → LoopOut
  | .exited s, n => .exited (s + n)
  | .earlyRet s, n => .earlyRet (s + n)
  | .panicked s, n => .panicked (s + n)
  | .diverged s, n => .diverged (s + n)

/-- The retry loop of `Fetch` (goreq.go:533-544).  The `for` statement's
init clause performed the single `r.request()` call before this loop is
entered; the post clause is empty and the body contains no further
`r.request()` call, so `resp` and `err` are loop constants: the condition
`Repeat(resp, err)` is re-evaluated against the same attempt every
iteration, the body returns the latched error when one is present, and
otherwise only `Sleep(cnt)` and `cnt++` run until `Sleep` refuses. -/
def retryLoopGo (opts : RetryOptions) (resp : Option Response) (err : Option GoErr) :
    Int → Nat → LoopOut
  | _, 0 => .diverged 0
  | cnt, fuel + 1 =>
    if opts.Repeat resp err then
      if err.isSome || resp.isNone then .earlyRet 0
      else
        match opts.Sleep cnt with
        | .panics => .panicked 1
        | .deny => .exited 1
        | .allow => (retryLoopGo opts resp err (cnt + 1) fuel).addSleeps 1
    else .exited 0

/-- The environment of collaborator capabilities `Fetch` consumes: the
transport (`client.Do`, indexed by how many transport calls have already
been made), the streaming JSON decoder for the destination type, and the
three decompressors.  `brotli.NewReader` cannot fail at construction, so
the brotli capability is total; construction-time and read-time failures of
the other two are not distinguished. -/
structure FetchEnv where
  transport : Nat → Except GoErr Response
  jsonDec : String → Except String GoValue
  gunzip : String → Except GoErr String
  unzstd : String → Except GoErr String
  unbrotli : String → String

/-- The decode-and-validate tail of `Fetch` (goreq.go:599-638), given the
(possibly decompressed) body text.  Returns the value and error `Fetch`
returns, plus whether the error was latched through `contextErr` (a JSON
decode failure on an in-range status is returned *without* latching,
goreq.go:612).  On a JSON decode failure the partially decoded destination
is not modelled and the zero value stands in for it.  In the non-JSON
branch `io.ReadAll` on an in-memory body cannot fail, and the second
`r.err != nil` test under the status check (goreq.go:629) is dead code
because a decode failure already returned at goreq.go:623-626. -/
def decodePhase (r : Request) (env : FetchEnv) (rsp : Response) (bodyStr : String) :
    GoValue × Option GoErr × Bool :=
  if r.isJson then
    match env.jsonDec bodyStr with
    | .error m =>
        if rsp.statusCode < 200 ∨ rsp.statusCode ≥ 300 then
          (zeroValue r.dest, some (.statusDecode rsp.status m), true)
        else
          (zeroValue r.dest, some (.jsonErr m), false)
    | .ok v =>
        if rsp.statusCode < 200 ∨ rsp.statusCode ≥ 300 then
          (v, some (.statusIncorrect rsp.status), true)
        else
          (v, none, false)
  else
    match Request.any (ptrType r.dest) (zeroValue r.dest) bodyStr with
    | .error e => (zeroValue r.dest, some e, true)
    | .ok v =>
        if rsp.statusCode < 200 ∨ rsp.statusCode ≥ 300 then
          (v, some (.statusIncorrect rsp.status), true)
        else
          (v, none, false)

/-- How `Fetch` ends: a runtime panic (tagged with its origin), a normal
return carrying the returned value and error plus the final descriptor
state, or fuel exhaustion inside the retry loop.  Every outcome carries the
number of transport (`client.Do`) and `Sleep` invocations performed. -/
inductive FetchOut where
  | fault (origin : FaultSrc) (transportCalls sleepCalls : Nat)
  | ret (value : GoValue) (retErr : Option GoErr) (final : Request) (transportCalls sleepCalls : Nat)
  | outOfFuel (transportCalls sleepCalls : Nat)

/-- `Fetch` (goreq.go:515-639): guard on the latched error and the cancelled
context, materialize the wire request, perform the single transport call,
run the retry loop, then record the response, select the decompressing
reader (`deflate` has no case arm and passes through), capture the response
cookies wholesale over the request cookies, and decode/validate.  The tee
into `retBody` duplicates bytes without changing them and is invisible
here. -/
def Request.Fetch (r : Request) (w : HeaderStore) (env : FetchEnv) (fuel : Nat) : FetchOut :=
  let t0 := zeroValue r.dest
  if r.err.isSome then .ret t0 r.err r 0 0
  else if r.ctxErr then .ret t0 (some .ctxCancelled) r 0 0
  else
    match r.makeRequest w with
    | .fault => .fault .nilFinalReq 0 0
    | .failed e r1 => .ret t0 (some e) (r1.contextErr (some e)) 0 0
    | .ok r1 =>
        let tr := env.transport 0
        let resp : Option Response := match tr with | .ok rsp => some rsp | .error _ => none
        let err0 : Option GoErr := match tr with | .ok _ => none | .error e => some e
        let r2 : Request := { r1 with err := err0 }
        match retryLoopGo r2.retryOptions resp err0 1 fuel with
        | .diverged s => .outOfFuel 1 s
        | .panicked s => .fault .sleepPanic 1 s
        | .earlyRet s => .ret t0 err0 (r2.contextErr err0) 1 s
        | .exited s =>
            match resp with
            | none => .ret t0 r2.err r2 1 s
            | some rsp =>
                let r3 : Request := { r2 with lastResponse := some rsp }
                if r3.err.isSome then .ret t0 r3.err (r3.contextErr r3.err) 1 s
                else
                  let readerE : Except GoErr String :=
                    match rsp.contentEncoding with
                    | "zstd" => env.unzstd rsp.body
                    | "br" => .ok (env.unbrotli rsp.body)
                    | "gzip" => env.gunzip rsp.body
                    | _ => .ok rsp.body
                  match readerE with
                  | .error e => .ret t0 (some e) (({ r3 with err := some e } : Request).contextErr (some e)) 1 s
                  | .ok bodyStr =>
                      let r4 : Request := { r3 with cookie := rsp.cookies }
                      match decodePhase r4 env rsp bodyStr with
                      | (v, some e, latched) =>
                          let r5 : Request := { r4 with err := some e }
                          .ret v (some e) (if latched then r5.contextErr (some e) else r5) 1 s
                      | (v, none, _) => .ret v none { r4 with err := none } 1 s

/-- The number of transport (`client.Do`) invocations an outcome records. -/
def FetchOut.transportCallsOf : FetchOut → Nat
  | .fault _ n _ => n
  | .ret _ _ _ n _ => n
  | .outOfFuel n _ => n

/-- The number of `RetryOptions.Sleep` invocations an outcome records. -/
def FetchOut.sleepCallsOf : FetchOut → Nat
  | .fault _ _ s => s
  | .ret _ _ _ _ s => s
  | .outOfFuel _ s => s

/-- The value `Fetch` returned, when it returned. -/
def FetchOut.valueOf : FetchOut → Option GoValue
  | .ret v _ _ _ _ => some v
  | _ => none

/-- The error `Fetch` returned, when it returned. -/
def FetchOut.errOf : FetchOut → Option GoErr
  | .ret _ e _ _ _ => e
  | _ => none

/-- The panic origin, when `Fetch` panicked. -/
def FetchOut.faultOf : FetchOut → Option FaultSrc
  | .fault o _ _ => some o
  | _ => none

/-- "The error message names the HTTP status": the status line is a prefix
of the rendered message. -/
def errNamesStatus (e : GoErr) (status : String) : Prop :=
  status.toList <+: e.message.toList

/-- A constant-result transport plus pass-through decompressors: the fixture
environment used by the concrete scenarios. -/
def envOf (tr : Except GoErr Response) (jd : String → Except String GoValue) : FetchEnv where
  transport := fun _ => tr
  jsonDec := jd
  gunzip := fun s => .ok s
  unzstd := fun s => .ok s
  unbrotli := fun s => s

/-- A JSON capability for scenarios that never reach a JSON decode. -/
def jsonDecNoop : String → Except String GoValue :=
  fun _ => .error "unexpected JSON decode"

/-- The delegated `encoding/json` unmarshal capability, instantiated for a
boolean destination (the spec treats JSON coding as an external
collaborator): the JSON literals `true` and `false` decode to the
corresponding boolean, anything else is a syntax error. -/
def jsonDecBoolCap : String → Except String GoValue :=
  fun s =>
    if s = "true" then .ok (.boolVal true)
    else if s = "false" then .ok (.boolVal false)
    else .error ("invalid character in literal " ++ s)

/-- Fixture URL. -/
def url0 : Url := { path := "/get", query := [] }

/-- A 200 response with the given body, no content encoding, no cookies. -/
def resp200 (body : String) : Response :=
  { statusCode := 200, status := "200 OK", contentEncoding := "", body := body, cookies := [] }

/-- A 404 response fixture. -/
def c5resp : Response :=
  { statusCode := 404, status := "404 Not Found", contentEncoding := "", body := "oops", cookies := [] }

/-- A 500 response fixture. -/
def resp500 : Response :=
  { statusCode := 500, status := "500 Internal Server Error", contentEncoding := "", body := "", cookies := [] }

/-- The store after the single allocation `New` performs from the empty
store. -/
def store1 : HeaderStore := (New emptyStore .text false (.ok url0)).1

/-- A fresh string-destination descriptor, as built by
`New[string](ctx, link)` on a live context with a well-formed link. -/
def freshText : Request := (New emptyStore .text false (.ok url0)).2

/-- The wire request `makeRequest` materializes from `freshText`. -/
def c5fr : WireRequest :=
  { method := "GET", url := url0, bodyData := "", header := defaultHeaders, cookies := [] }

/-- Fixture cookie. -/
def ck0 : Cookie := { name := "session", value := "abc" }

/-- A descriptor with a latched configuration error: `Params` with an
odd-length argument list latches "incompatible query parameter" and cancels
the context. -/
def c2errReq : Request := freshText.Params ["a"]

/-- Claim C1 fixture: a `DefaultRetryOptions` policy allowing 2 retries. -/
def c1opts : DefaultRetryOptions := { Count := 2, HttpErrors := [], HttpStatusCodes := [] }

/-- The C1 descriptor: fresh descriptor with the 2-retry policy installed. -/
def c1req : Request := freshText.Retry c1opts.asRetryOptions

/-- The C1 environment: the transport fails every attempt with the same
(retry-eligible) error. -/
def c1env : FetchEnv := envOf (.error (.transport "dial tcp: connection refused")) jsonDecNoop

/-- C3 fixtures: a base descriptor built by `New`, one `Headers` call on the
base, a `Clone`, then one `Headers` call on the clone (mirroring
examples/get_use_path.go, where the clone is documented as isolating the
request configuration). -/
def c3base : Request := (New emptyStore .text false (.ok url0)).2

/-- The store after the base descriptor's own `Headers` call. -/
def c3w2 : HeaderStore := (Request.Headers store1 c3base ["X-Test", "test=req"]).1

/-- The clone taken after the base was configured. -/
def c3clone : Request := c3base.Clone

/-- The store after the clone's `Headers` call. -/
def c3w3 : HeaderStore := (Request.Headers c3w2 c3clone ["Content-Type", "text/plain"]).1

/-- C4 fixture: fresh descriptor with a raw body and no explicit `Method`
call. -/
def c4req : Request := freshText.BodyRaw "hello"

/-- C6 fixtures: fresh descriptors for the integer and boolean
destinations. -/
def c6int : Request := (New emptyStore .intT false (.ok url0)).2

/-- The boolean-destination descriptor (classified JSON by `checkType`). -/
def c6bool : Request := (New emptyStore .boolT false (.ok url0)).2

/-- C7 fixture: `Method` called with a non-standard string on a fresh
descriptor. -/
def c7a : Request := freshText.Method "FOO"

/-- C7 second step: a standard method set right after the invalid one. -/
def c7b : Request := c7a.Method "GET"

/-- C8 fixture: an empty error allow-list and a status allow-list containing
500. -/
def c8opts : DefaultRetryOptions := { Count := 3, HttpErrors := [], HttpStatusCodes := [500] }

/-- C9 fixture: a descriptor whose initial link carried the repeated query
parameter `a=1&a=2`. -/
def c9base : Request := (New emptyStore .text false (.ok { path := "/", query := [("a", ["1", "2"])] })).2

/-- The C9 descriptor after `Params("a", "3")`. -/
def c9res : Request := c9base.Params ["a", "3"]

theorem toList_append (a b : String) : (a ++ b).toList = a.toList ++ b.toList := rfl

theorem lookup_assocSet (q : AssocMap) (k : String) (vs : List String) :
    (assocSet q k vs).lookup k = some vs := by
  induction q with
  | nil => simp [assocSet, List.lookup]
  | cons p t ih =>
      by_cases h : p.1 = k
      · simp [assocSet, h, List.lookup]
      · have hk : (k == p.1) = false := by
          simp only [beq_eq_false_iff_ne, ne_eq]
          exact fun hh => h hh.symm
        simp [assocSet, h, List.lookup, hk, ih]

theorem retryLoop_empty (resp : Option Response) (err : Option GoErr) (cnt : Int) (f : Nat) :
    retryLoopGo emptyOptionsGo resp err cnt (f + 1) = .exited 0 := by
  simp [retryLoopGo, emptyOptionsGo]

/-- C7: the claim says `Method` with a non-standard string latches a
terminal configuration error while a standard method never introduces one.
The code validates the descriptor's *current* method field instead of the
argument: `Method("FOO")` on a fresh (GET) descriptor latches nothing and
stores FOO, and the subsequent `Method("GET")` — a standard method — latches
"method incorrect" because the field then holds FOO. -/
theorem c7_method_validates_current_field :
    c7a.err = none ∧ c7a.ctxErr = false ∧ c7a.method = "FOO" ∧
    c7b.err = some (.msg "method incorrect") ∧ c7b.ctxErr = true ∧ c7b.method = "GET" := by
  refine ⟨rfl, rfl, rfl, rfl, rfl, rfl⟩

/-- C4: the claim says `Fetch` on a fresh descriptor configured with
`BodyRaw("hello")` materializes a POST wire request and the materialization
completes without fault.  The method field is indeed POST, but `finalReq`
is still nil on every descriptor fresh from `New`, and `makeRequest`
dereferences it (goreq.go:472) before building the wire request: `Fetch`
panics with a nil-pointer dereference, performing no transport call. -/
theorem c4_bodyraw_fetch_faults :
    c4req.method = "POST" ∧ c4req.finalReq = none ∧
    ∀ (env : FetchEnv) (fuel : Nat),
      c4req.Fetch store1 env fuel = .fault .nilFinalReq 0 0 := by
  exact ⟨rfl, rfl, fun env fuel => rfl⟩

/-- C6: the decode matrix.  The text row holds (body "hello" into a text
destination yields "hello") and the boolean row holds (body "true" decodes
to true — via the JSON decoder, since `checkType` classifies `bool` as
JSON).  Both integer rows fail: `any`'s arm is `case int:` but `Fetch`
passes `&t` of type `*int`, so body "42" yields 0 with a nil error instead
of 42, and the non-numeric body "abc" also yields 0 with a nil error
instead of a decode error. -/
theorem c6_decode_matrix_eval :
    ((c6int.Fetch store1 (envOf (.ok (resp200 "42")) jsonDecNoop) 1).valueOf =
        some (.intVal 0) ∧
      (c6int.Fetch store1 (envOf (.ok (resp200 "42")) jsonDecNoop) 1).errOf = none) ∧
    ((c6int.Fetch store1 (envOf (.ok (resp200 "abc")) jsonDecNoop) 1).valueOf =
        some (.intVal 0) ∧
      (c6int.Fetch store1 (envOf (.ok (resp200 "abc")) jsonDecNoop) 1).errOf = none) ∧
    ((freshText.Fetch store1 (envOf (.ok (resp200 "hello")) jsonDecNoop) 1).valueOf =
        some (.str "hello") ∧
      (freshText.Fetch store1 (envOf (.ok (resp200 "hello")) jsonDecNoop) 1).errOf = none) ∧
    ((c6bool.Fetch store1 (envOf (.ok (resp200 "true")) jsonDecBoolCap) 1).valueOf =
        some (.boolVal true) ∧
      (c6bool.Fetch store1 (envOf (.ok (resp200 "true")) jsonDecBoolCap) 1).errOf = none) := by
  exact ⟨⟨rfl, rfl⟩, ⟨rfl, rfl⟩, ⟨rfl, rfl⟩, ⟨rfl, rfl⟩⟩

/-- C3: the claim says `Clone` yields an independent copy with a distinct
header map.  `*rq = *r` copies the map reference, so the clone's header map
address equals the base's; a `Headers` call on the clone therefore becomes
visible through the base descriptor's own map (before the clone's call the
base map has no Content-Type, afterwards it does). -/
theorem c3_clone_shares_header_map :
    c3clone.headersAddr = c3base.headersAddr ∧
    assocGet (c3w2.read c3base.headersAddr) "Content-Type" = [] ∧
    assocGet (c3w3.read c3base.headersAddr) "Content-Type" = ["text/plain"] := by
  exact ⟨rfl, by decide, by decide⟩

/-- C2 counterexample: a descriptor with the terminal error/cancellation
slot set (latched by an odd-length `Params` call) is still mutated by
`Cookie`, which has no guard in the source — so not *every* configuration
operation is a no-op in the terminal state, contradicting the claim's
"including Cookie". -/
theorem c2_cookie_mutates_errored_descriptor :
    c2errReq.ctxErr = true ∧
    c2errReq.err = some (.msg "incompatible query parameter") ∧
    c2errReq.Cookie [ck0] ≠ c2errReq := by
  refine ⟨rfl, rfl, fun h => absurd (congrArg Request.cookie h) (by decide)⟩

/-- C9 counterexample: on a key currently holding *more than one* value
(`a=1&a=2` from the initial link), the claim says `Params("a","3")` appends,
yielding three entries; the code tests `q.Get(a) != ""` (first value
non-empty) and *replaces*, collapsing the key to the single value `3`. -/
theorem c9_multivalue_replaced_not_appended :
    c9res.u.query.lookup "a" = some ["3"] ∧
    c9res.u.query.lookup "a" ≠ some ["1", "2", "3"] := by
  exact ⟨by decide, by decide⟩

/-- C1: the claim says a policy permitting N further attempts makes Fetch
re-execute the transport after each permitted delay, for exactly N+1
`client.Do` invocations.  The retry loop's `for` statement has an empty
post clause and its body never calls `r.request()` again, so the transport
is invoked exactly once no matter what the policy allows: with
`DefaultRetryOptions{Count: 2}` (N = 2, so the claim expects 3 calls) and a
transport failing every attempt with a retry-eligible error, one call is
made and `Sleep` is never even consulted; in general every `Fetch`
execution performs at most one transport invocation. -/
theorem c1_transport_called_once :
    ((c1req.Fetch store1 c1env 10).transportCallsOf = 1 ∧
      (c1req.Fetch store1 c1env 10).sleepCallsOf = 0) ∧
    ∀ (w : HeaderStore) (r : Request) (env : FetchEnv) (fuel : Nat),
      (r.Fetch w env fuel).transportCallsOf ≤ 1 := by
  constructor
  · exact ⟨rfl, rfl⟩
  · intro w r env fuel
    simp only [Request.Fetch]
    repeat' split
    all_goals simp [FetchOut.transportCallsOf]

/-- C10: with the default policy installed by `New` (`emptyOptions`),
`Repeat` is constantly false, so once a non-errored descriptor
materializes successfully, `Fetch` returns normally after exactly one
transport invocation and zero `Sleep` invocations — in particular
`emptyOptions.Sleep`'s `panic("not implemented")` is unreachable through
`Fetch`. -/
theorem c10_default_policy_single_call (w : HeaderStore) (r : Request) (env : FetchEnv)
    (fr : WireRequest) (fuel : Nat)
    (hopts : r.retryOptions = emptyOptionsGo)
    (herr : r.err = none) (hctx : r.ctxErr = false)
    (hmk : r.makeRequest w = .ok { r with finalReq := some fr, err := none })
    (hfuel : 1 ≤ fuel) :
    ∃ v e final, r.Fetch w env fuel = .ret v e final 1 0 := by
  obtain ⟨f, rfl⟩ : ∃ f, fuel = f + 1 := ⟨fuel - 1, by omega⟩
  cases htr : env.transport 0 with
  | ok rsp =>
      simp only [Request.Fetch, herr, hctx, hmk, htr, Option.isSome_none, Bool.false_eq_true,
        if_false]
      simp only [hopts, retryLoop_empty]
      repeat' split
      all_goals exact ⟨_, _, _, rfl⟩
  | error e =>
      simp only [Request.Fetch, herr, hctx, hmk, htr, Option.isSome_none, Bool.false_eq_true,
        if_false]
      simp only [hopts, retryLoop_empty]
      exact ⟨_, _, _, rfl⟩

/-- C10 witness: a fresh text descriptor (which carries `emptyOptions`)
against a transport returning 200. -/
theorem c10_witness :
    ∃ v e final,
      freshText.Fetch store1 (envOf (.ok (resp200 "hi")) jsonDecNoop) 1 = .ret v e final 1 0 :=
  c10_default_policy_single_call store1 freshText (envOf (.ok (resp200 "hi")) jsonDecNoop)
    c5fr 1 rfl rfl rfl rfl (by omega)

/-- C2 (amended): once the error/cancellation slot is set, every
configuration operation *except* `Cookie` returns the descriptor (and
header store) unchanged; `Cookie`, which lacks the guard, still replaces
the cookie list; and `Fetch` immediately returns the latched error with the
zero value, performing no transport call and no sleep. -/
theorem c2_terminal_error_semantics (w : HeaderStore) (r : Request) (env : FetchEnv)
    (cl : Nat) (p m raw : String) (attr attr2 : List String)
    (mj : Except GoErr String) (mp : MultipartState) (b : Option Unit)
    (o : RetryOptions) (c : List Cookie) (fuel : Nat) (e : GoErr)
    (hctx : r.ctxErr = true) (herr : r.err = some e) :
    r.Client cl = r ∧ r.Path p = r ∧ r.Params attr = r ∧
    Request.Headers w r attr2 = (w, r) ∧ r.Method m = r ∧
    Request.BodyJson w r mj = (w, r) ∧ r.BodyMultipart mp = r ∧
    r.BodyRaw raw = r ∧ r.ToBody b = r ∧ r.Retry o = r ∧
    r.Cookie c = { r with cookie := c } ∧
    r.Fetch w env fuel = .ret (zeroValue r.dest) (some e) r 0 0 := by
  refine ⟨?_, ?_, ?_, ?_, ?_, ?_, ?_, ?_, ?_, ?_, rfl, ?_⟩
  · simp [Request.Client, hctx]
  · simp [Request.Path, hctx]
  · simp [Request.Params, hctx]
  · simp [Request.Headers, hctx]
  · simp [Request.Method, hctx]
  · simp [Request.BodyJson, hctx]
  · simp [Request.BodyMultipart, hctx]
  · simp [Request.BodyRaw, hctx]
  · simp [Request.ToBody, hctx]
  · simp [Request.Retry, hctx]
  · simp [Request.Fetch, herr]

/-- C2 witness: the amended semantics at the concrete descriptor whose
error was latched by an odd-length `Params` call. -/
theorem c2_witness :
    c2errReq.Client 1 = c2errReq ∧ c2errReq.Path "/x" = c2errReq ∧
    c2errReq.Params ["k", "v"] = c2errReq ∧
    Request.Headers store1 c2errReq ["K", "V"] = (store1, c2errReq) ∧
    c2errReq.Method "PUT" = c2errReq ∧
    Request.BodyJson store1 c2errReq (.ok "1") = (store1, c2errReq) ∧
    c2errReq.BodyMultipart { ctxErr := none, contentType := "", payload := "" } = c2errReq ∧
    c2errReq.BodyRaw "xy" = c2errReq ∧ c2errReq.ToBody (some ()) = c2errReq ∧
    c2errReq.Retry emptyOptionsGo = c2errReq ∧
    c2errReq.Cookie [ck0] = { c2errReq with cookie := [ck0] } ∧
    c2errReq.Fetch store1 c1env 3 =
      .ret (zeroValue c2errReq.dest) (some (.msg "incompatible query parameter")) c2errReq 0 0 :=
  c2_terminal_error_semantics store1 c2errReq c1env 1 "/x" "PUT" "xy" ["k", "v"] ["K", "V"]
    (.ok "1") { ctxErr := none, contentType := "", payload := "" } (some ()) emptyOptionsGo
    [ck0] 3 (.msg "incompatible query parameter") rfl rfl

/-- C8 counterexample: the claim says that with an empty error allow-list, a
non-nil response whose status is in the status allow-list and a nil
transport error make `Repeat` return true.  `inHttpError` returns false for
a nil error *before* consulting the (empty) allow-list, so `Repeat` is
false: with `{Count: 3, HttpErrors: [], HttpStatusCodes: [500]}` and a 500
response with nil error, `Repeat` returns false. -/
theorem c8_nil_error_never_repeats :
    c8opts.HttpErrors = [] ∧
    c8opts.HttpStatusCodes.contains resp500.statusCode = true ∧
    c8opts.Repeat (some resp500) none = false := by
  exact ⟨rfl, by decide, by decide⟩

/-- C8 (amended): `Repeat` returns true exactly when the error is non-nil
and matches the error allow-list (an empty list matching any non-nil error)
and, when a response is present, its status code matches the status
allow-list (an empty list matching any status); in particular a nil
transport error never repeats, regardless of the allow-lists. -/
theorem c8_repeat_characterization (d : DefaultRetryOptions) (resp : Option Response)
    (err : Option GoErr) :
    (d.Repeat resp err = true ↔
      ∃ e, err = some e ∧ (d.HttpErrors = [] ∨ e ∈ d.HttpErrors) ∧
        ∀ rsp, resp = some rsp →
          (d.HttpStatusCodes = [] ∨ rsp.statusCode ∈ d.HttpStatusCodes)) ∧
    d.Repeat resp none = false := by
  constructor
  · cases resp <;> cases err <;>
      simp [DefaultRetryOptions.Repeat, DefaultRetryOptions.inHttpError,
        DefaultRetryOptions.inStatusCode, List.length_eq_zero]
  · cases resp <;>
      simp [DefaultRetryOptions.Repeat, DefaultRetryOptions.inHttpError]

/-- C9 (amended): for a single key/value pair on a live descriptor,
`Params` *replaces* (collapsing the key to one value) exactly when the
key's first current value is non-empty — `q.Get(key) != ""` — and *appends*
otherwise (key absent, or its first value is the empty string); the claim's
"exactly one value" trigger is wrong for multi-valued and empty-valued
keys, but its concrete instance survives: `Params("a","1")` then
`Params("a","2")` yields exactly the single entry `a=2`. -/
theorem c9_params_semantics (r : Request) (a b : String) (h : r.ctxErr = false) :
    ((valuesGet r.u.query a ≠ "" →
        (r.Params [a, b]).u.query = valuesSet r.u.query a b) ∧
      (valuesGet r.u.query a = "" →
        (r.Params [a, b]).u.query = valuesAdd r.u.query a b)) ∧
    assocGet (valuesSet r.u.query a b) a = [b] ∧
    assocGet (valuesAdd r.u.query a b) a = assocGet r.u.query a ++ [b] ∧
    ((freshText.Params ["a", "1"]).Params ["a", "2"]).u.query = [("a", ["2"])] := by
  refine ⟨⟨?_, ?_⟩, ?_, ?_, by decide⟩
  · intro hg
    simp [Request.Params, h, paramsLoop, hg]
  · intro hg
    simp [Request.Params, h, paramsLoop, hg]
  · simp [valuesSet, assocGet, lookup_assocSet]
  · simp [valuesAdd, assocGet, lookup_assocSet]

/-- C9 witness: the amended semantics at a concrete fresh descriptor and
pair. -/
theorem c9_witness :
    ((valuesGet freshText.u.query "a" ≠ "" →
        (freshText.Params ["a", "2"]).u.query = valuesSet freshText.u.query "a" "2") ∧
      (valuesGet freshText.u.query "a" = "" →
        (freshText.Params ["a", "2"]).u.query = valuesAdd freshText.u.query "a" "2")) ∧
    assocGet (valuesSet freshText.u.query "a" "2") "a" = ["2"] ∧
    assocGet (valuesAdd freshText.u.query "a" "2") "a" =
      assocGet freshText.u.query "a" ++ ["2"] ∧
    ((freshText.Params ["a", "1"]).Params ["a", "2"]).u.query = [("a", ["2"])] :=
  c9_params_semantics freshText "a" "2" rfl

theorem namesStatus_statusIncorrect (st : String) :
    errNamesStatus (.statusIncorrect st) st := by
  refine ⟨(": status code incorrect").toList, ?_⟩
  simp [GoErr.message, toList_append]

theorem namesStatus_statusDecode (st m : String) :
    errNamesStatus (.statusDecode st m) st := by
  refine ⟨(": status code incorrect, error decode body: ").toList ++ m.toList ++ ("\n").toList, ?_⟩
  simp [GoErr.message, toList_append, List.append_assoc]

theorem decodePhase_status_bad (r : Request) (env : FetchEnv) (rsp : Response) (bodyStr : String)
    (hclass : r.isJson = checkType (valType r.dest))
    (hst : rsp.statusCode < 200 ∨ rsp.statusCode ≥ 300) :
    ∃ v e latched, decodePhase r env rsp bodyStr = (v, some e, latched) ∧
      errNamesStatus e rsp.status ∧
      (r.isJson = true → ∀ dv, env.jsonDec bodyStr = .ok dv → v = dv) ∧
      (r.isJson = false → Request.any (ptrType r.dest) (zeroValue r.dest) bodyStr = .ok v) := by
  by_cases hj : r.isJson = true
  · cases hdec : env.jsonDec bodyStr with
    | error m =>
        refine ⟨zeroValue r.dest, .statusDecode rsp.status m, true, ?_,
          namesStatus_statusDecode _ _, ?_, ?_⟩
        · simp [decodePhase, hj, hdec, hst]
        · intro _ dv hdv
          cases hdv
        · intro hfalse
          rw [hj] at hfalse
          cases hfalse
    | ok dv =>
        refine ⟨dv, .statusIncorrect rsp.status, true, ?_,
          namesStatus_statusIncorrect _, ?_, ?_⟩
        · simp [decodePhase, hj, hdec, hst]
        · intro _ dv2 hdv2
          exact Except.ok.inj hdv2
        · intro hfalse
          rw [hj] at hfalse
          cases hfalse
  · have hj2 : r.isJson = false := by simpa using hj
    obtain ⟨v, hv⟩ : ∃ v, Request.any (ptrType r.dest) (zeroValue r.dest) bodyStr = .ok v := by
      rw [hj2] at hclass
      rcases hdt : r.dest
      case bytes => exact ⟨.bytes bodyStr, rfl⟩
      case text => exact ⟨.str bodyStr, rfl⟩
      case intT => exact ⟨.intVal 0, rfl⟩
      case boolT =>
        rw [hdt] at hclass
        exact absurd hclass (by decide)
      case json =>
        rw [hdt] at hclass
        exact absurd hclass (by decide)
    refine ⟨v, .statusIncorrect rsp.status, true, ?_,
      namesStatus_statusIncorrect _, ?_, fun _ => hv⟩
    · simp [decodePhase, hj2, hv, hst]
    · intro htrue
      rw [hj2] at htrue
      cases htrue

/-- C5: on every execution in which the transport returns a response whose
status lies outside [200,300) and which reaches the decode step (no prior
latched error, successful materialization, the retry loop exits normally,
no content encoding), `Fetch` returns a non-nil error whose message names
the HTTP status (the status line is a prefix of the message), decoding is
performed before status validation, and the decoded value is returned
alongside the error: for a JSON destination the returned value is whatever
the JSON decoder produced when it succeeded, and for a non-JSON destination
the returned value is exactly the polymorphic byte-decoder's (always
successful) result.  `hclass` is the classification invariant `New`
establishes. -/
theorem c5_status_error (w : HeaderStore) (r : Request) (env : FetchEnv)
    (fr : WireRequest) (fuel s : Nat) (rsp : Response)
    (herr : r.err = none) (hctx : r.ctxErr = false)
    (hclass : r.isJson = checkType (valType r.dest))
    (hmk : r.makeRequest w = .ok { r with finalReq := some fr, err := none })
    (htr : env.transport 0 = .ok rsp)
    (hloop : retryLoopGo r.retryOptions (some rsp) none 1 fuel = .exited s)
    (henc : rsp.contentEncoding = "")
    (hst : rsp.statusCode < 200 ∨ rsp.statusCode ≥ 300) :
    ∃ v e final, r.Fetch w env fuel = .ret v (some e) final 1 s ∧
      errNamesStatus e rsp.status ∧
      (r.isJson = true → ∀ dv, env.jsonDec rsp.body = .ok dv → v = dv) ∧
      (r.isJson = false → Request.any (ptrType r.dest) (zeroValue r.dest) rsp.body = .ok v) := by
  obtain ⟨v0, e0, l0, hdp, hnames, hjok, hnj⟩ :=
    decodePhase_status_bad
      { r with
        ctxErr := false
        finalReq := some fr
        err := none
        lastResponse := some rsp
        cookie := rsp.cookies } env rsp rsp.body hclass hst
  simp only [Request.Fetch, herr, hctx, hmk, htr, Option.isSome_none, Bool.false_eq_true,
    if_false, hloop, henc]
  rw [show (match ("" : String) with
      | "zstd" => env.unzstd rsp.body
      | "br" => Except.ok (env.unbrotli rsp.body)
      | "gzip" => env.gunzip rsp.body
      | _ => Except.ok rsp.body) = Except.ok rsp.body from rfl]
  simp only [hdp]
  exact ⟨v0, e0, _, rfl, hnames, hjok, hnj⟩

/-- C5 witness: a text-destination descriptor against a 404 response with
body "oops". -/
theorem c5_witness :
    ∃ v e final,
      freshText.Fetch store1 (envOf (.ok c5resp) jsonDecNoop) 1 = .ret v (some e) final 1 0 ∧
      errNamesStatus e c5resp.status ∧
      (freshText.isJson = true →
        ∀ dv, (envOf (.ok c5resp) jsonDecNoop).jsonDec c5resp.body = .ok dv → v = dv) ∧
      (freshText.isJson = false →
        Request.any (ptrType freshText.dest) (zeroValue freshText.dest) c5resp.body = .ok v) :=
  c5_status_error store1 freshText (envOf (.ok c5resp) jsonDecNoop) c5fr 1 0 c5resp
    rfl rfl rfl rfl rfl rfl rfl (by decide)
